import Mathlib

/-!
Shallow embedding of the Movieverse backend (`src/app.py`): a Flask service with
user registration/login, a JWT session issuer, an OMDB search/detail proxy and a
per-user favorites store.  Request handlers are modelled as pure functions over
an explicit application state (the database rows); the outbound OMDB HTTP call
is modelled by an explicit argument describing its outcome; an unanticipated
exception raised by a database commit is modelled by an optional exception
message argument (the code catches `Exception as e`, rolls back, and returns a
500 body built from `str(e)`).
-/

namespace Movieverse

/-- A row of the `User` table (`models.py`): id, unique username, email and the
stored password hash (never the raw password). -/
structure User where
  id : Nat
  username : String
  email : String
  password_hash : String
deriving DecidableEq, Repr

/-- Modelled from the spec: `models.py` (with `User.set_password`) is not under
`src/`; per §4.1 the password is stored via a one-way, salted hashing
primitive.  The primitive is modelled as an injective tagging function, which
is all the handlers observe of it. -/
def hashPw (pw : String) : String := "pbkdf2-sha256$" ++ pw

/-- Modelled from the spec: `User.check_password` (in the missing `models.py`)
verifies a candidate password against the stored hash. -/
def check_password (u : User) (pw : String) : Bool :=
  u.password_hash == hashPw pw

/-- A row of the `Favorite` table (`models.py`): primary key `id`, the external
movie identifier, denormalized title, optional poster URL, and the owning
user's id. -/
structure Favorite where
  id : Nat
  movie_id : String
  title : String
  poster_url : Option String
  user_id : Nat
deriving DecidableEq, Repr

/-- The persistent store: the `User` and `Favorite` tables. -/
structure AppState where
  users : List User
  favorites : List Favorite
deriving DecidableEq, Repr

/-- A movie summary returned by the external catalog.  `app.py` passes these
through without inspecting their fields, so they are modelled as atoms. -/
abbrev MovieSummary := String

/-- The JSON document returned by the OMDB catalog: a `Response` field, an
optional `Error` string and an optional `Search` array (each `Option` models
presence of the key, read with `data.get`). -/
structure OmdbReply where
  response : Option String
  error : Option String
  search : Option (List MovieSummary)
deriving DecidableEq, Repr

/-- Outcome of the outbound `requests.get` call: either a transport failure
(`requests.exceptions.RequestException`, which includes the bounded 10-second
timeout) or a parsed JSON reply. -/
inductive UpstreamResult where
  | transportError
  | reply (r : OmdbReply)
deriving DecidableEq, Repr

/-- Modelled from the spec: JWT issuance/verification lives in
`flask_jwt_extended`, not under `src/`; per §4.2 a session token is a signed
credential binding one user id with an expiry. -/
structure Token where
  uid : Nat
  exp : Nat
  sig : String
deriving DecidableEq, Repr

/-- Modelled from the spec: the token signature over the payload, keyed by the
process-wide `JWT_SECRET_KEY`. -/
def signTok (key : String) (uid exp : Nat) : String :=
  key ++ "." ++ toString uid ++ "." ++ toString exp

/-- Modelled from the spec: the fixed validity window of a session token. -/
def tokenValidityWindow : Nat := 900

/-- Modelled from the spec: `issue(userId)` (the library's
`create_access_token`) signs the user id together with an expiry `now +
window` under the process-wide key. -/
def issue (key : String) (now uid : Nat) : Token :=
  Token.mk uid (now + tokenValidityWindow) (signTok key uid (now + tokenValidityWindow))

/-- Modelled from the spec: `verify(token)` (the library check behind
`jwt_required`) accepts a token iff its signature matches under the same key
and it has not expired, and then yields the bound user id. -/
def verify (key : String) (now : Nat) (t : Token) : Option Nat :=
  if t.sig = signTok key t.uid t.exp ∧ now < t.exp then some t.uid else none

/-- A JSON response body produced by the handlers in `app.py`. -/
inductive Body where
  | err (text : String)
  | message (text : String)
  | loginOk (token : Token) (user_id : Nat) (username : String)
  | movieList (items : List MovieSummary)
  | movieDetail (data : OmdbReply)
deriving DecidableEq, Repr

/-- An HTTP response: status code and JSON body. -/
structure Resp where
  status : Nat
  body : Body
deriving DecidableEq, Repr

/-- Spec §7: the `Conflict` error kind maps to 409 or 400 depending on the
route (the interface table lists `400/409 duplicate username` for register and
`409 duplicate` for favorites). -/
def conflictStatusCodes : List Nat := [409, 400]

/-- The JSON body of `/api/register`; each `Option` field models presence of
the key (the handler checks `field in data`). -/
structure RegisterReq where
  username : Option String
  email : Option String
  password : Option String
deriving DecidableEq, Repr

/-- `register` (`app.py` lines 33-52): 400 on a missing field, 400
`Username already exists` when a row with that username exists, otherwise
inserts a new `User` row (hashed password, id assigned by the database) and
returns 201.  `commitFail = some e` models `db.session.commit()` raising an
exception with text `e`: the session is rolled back and the handler returns
500 with `str(e)` as the error message. -/
def register (st : AppState) (nextId : Nat) (data : RegisterReq)
    (commitFail : Option String) : Resp × AppState :=
  match data.username, data.email, data.password with
  | some un, some em, some pw =>
    if (st.users.find? (fun u => u.username == un)).isSome then
      (Resp.mk 400 (Body.err "Username already exists"), st)
    else
      match commitFail with
      | some e => (Resp.mk 500 (Body.err e), st)
      | none =>
        (Resp.mk 201 (Body.message "User registered successfully"),
         { st with users := st.users ++ [User.mk nextId un em (hashPw pw)] })
  | _, _, _ => (Resp.mk 400 (Body.err "Missing required fields"), st)

/-- The JSON body of `/api/login`. -/
structure LoginReq where
  username : Option String
  password : Option String
deriving DecidableEq, Repr

/-- `login` (`app.py` lines 54-71): 400 when the body or a field is missing;
on a username/password pair, looks the user up and checks the password; both
an unknown username and a failed password check fall through to the same
401 `Invalid credentials` response; on success returns the token, user id and
username. -/
def login (key : String) (now : Nat) (st : AppState) (data : Option LoginReq) : Resp :=
  match data with
  | none => Resp.mk 400 (Body.err "Missing username or password")
  | some d =>
    match d.username, d.password with
    | some un, some pw =>
      match st.users.find? (fun u => u.username == un) with
      | some u =>
        if check_password u pw then
          Resp.mk 200 (Body.loginOk (issue key now u.id) u.id u.username)
        else Resp.mk 401 (Body.err "Invalid credentials")
      | none => Resp.mk 401 (Body.err "Invalid credentials")
    | _, _ => Resp.mk 400 (Body.err "Missing username or password")

/-- `search_movies` (`app.py` lines 73-91): 400 when the `query` parameter is
absent or empty (Python falsiness of `None`/`""`); 502 when the outbound call
raises a `RequestException`; 404 with the catalog's `Error` string (default
`No results found`) when the reply carries `Response == "False"`; otherwise
200 with the `Search` array (default `[]`).  The handler never touches the
store, so the state is returned unchanged on every path. -/
def search_movies (st : AppState) (query : Option String) (up : UpstreamResult) :
    Resp × AppState :=
  match query with
  | none => (Resp.mk 400 (Body.err "Missing search query"), st)
  | some q =>
    if q = "" then (Resp.mk 400 (Body.err "Missing search query"), st)
    else
      match up with
      | UpstreamResult.transportError =>
        (Resp.mk 502 (Body.err "Failed to connect to OMDB API"), st)
      | UpstreamResult.reply r =>
        if r.response = some "False" then
          (Resp.mk 404 (Body.err (r.error.getD "No results found")), st)
        else (Resp.mk 200 (Body.movieList (r.search.getD [])), st)

/-- `get_movie_details` (`app.py` lines 93-107): same pattern as the search
route, keyed by the path's imdb id; on success the whole reply document is
returned. -/
def get_movie_details (st : AppState) (imdb_id : String) (up : UpstreamResult) :
    Resp × AppState :=
  match up with
  | UpstreamResult.transportError =>
    (Resp.mk 502 (Body.err "Failed to connect to OMDB API"), st)
  | UpstreamResult.reply r =>
    if r.response = some "False" then
      (Resp.mk 404 (Body.err (r.error.getD "Movie not found")), st)
    else (Resp.mk 200 (Body.movieDetail r), st)

/-- The JSON body of `POST /api/favorites`; `poster_url` is optional even when
present-checked fields are there (`data.get('poster_url')`). -/
structure AddFavoriteReq where
  movie_id : Option String
  title : Option String
  poster_url : Option String
deriving DecidableEq, Repr

/-- `add_favorite` (`app.py` lines 124-152), for the authenticated user `uid`
(the `jwt_required` gate and `get_jwt_identity()` having produced `uid`): 400
when the body or `movie_id`/`title` is missing; 409 `Movie already in
favorites` when a row with this `(movie_id, user_id)` already exists;
otherwise inserts the new `Favorite` row (id assigned by the database) and
returns 201 with the fixed message `Favorite added`.  `commitFail` models a
commit exception exactly as in `register`. -/
def add_favorite (st : AppState) (nextId uid : Nat) (data : Option AddFavoriteReq)
    (commitFail : Option String) : Resp × AppState :=
  match data with
  | none => (Resp.mk 400 (Body.err "Missing required fields"), st)
  | some d =>
    match d.movie_id, d.title with
    | some mid, some t =>
      if (st.favorites.find? (fun f => f.movie_id == mid && f.user_id == uid)).isSome then
        (Resp.mk 409 (Body.err "Movie already in favorites"), st)
      else
        match commitFail with
        | some e => (Resp.mk 500 (Body.err e), st)
        | none =>
          (Resp.mk 201 (Body.message "Favorite added"),
           { st with favorites :=
               st.favorites ++ [Favorite.mk nextId mid t d.poster_url uid] })
    | _, _ => (Resp.mk 400 (Body.err "Missing required fields"), st)

/-- `delete_favorite` (`app.py` lines 154-167), for the authenticated user
`uid`: looks up a favorite with the given primary key owned by `uid`; 404
`Favorite not found` when there is none, otherwise deletes that row (by its
primary key) and returns 200. -/
def delete_favorite (st : AppState) (uid fid : Nat) : Resp × AppState :=
  match st.favorites.find? (fun f => f.id == fid && f.user_id == uid) with
  | none => (Resp.mk 404 (Body.err "Favorite not found"), st)
  | some fav =>
    (Resp.mk 200 (Body.message "Favorite deleted"),
     { st with favorites := st.favorites.eraseP (fun f => f.id == fav.id) })

/-- Spec §3 invariant on the `User` table: usernames are unique. -/
def UserInv (st : AppState) : Prop :=
  st.users.Pairwise (fun a b => a.username ≠ b.username)

/-- Spec §3 invariant on the `Favorite` table: no two rows share the same
(user, movie identifier) pair. -/
def FavInv (st : AppState) : Prop :=
  st.favorites.Pairwise (fun a b => ¬(a.user_id = b.user_id ∧ a.movie_id = b.movie_id))

/-- Primary keys of the `Favorite` table are unique (database-assigned ids). -/
def FavIdInv (st : AppState) : Prop :=
  st.favorites.Pairwise (fun a b => a.id ≠ b.id)

/-- In a list that is pairwise free of two elements both matching `p`, a member
matching `p` is counted exactly once. -/
theorem countP_eq_one_of_pairwise {α : Type} {p : α → Bool} {l : List α}
    (hp : l.Pairwise (fun a b => ¬(p a = true ∧ p b = true)))
    {u : α} (hu : u ∈ l) (hpu : p u = true) :
    l.countP p = 1 := by
  induction l with
  | nil => cases hu
  | cons a t ih =>
    rcases List.pairwise_cons.mp hp with ⟨ha, ht⟩
    rw [List.countP_cons]
    rcases List.mem_cons.mp hu with rfl | hut
    · have h0 : t.countP p = 0 := by
        rw [List.countP_eq_zero]
        intro x hx hpx
        exact ha x hx ⟨hpu, hpx⟩
      simp [h0, hpu]
    · have h1 : t.countP p = 1 := ih ht hut
      have hpa : p a = false := by
        cases hqa : p a with
        | false => rfl
        | true => exact absurd ⟨hqa, hpu⟩ (ha u hut)
      simp [h1, hpa]

/-- After erasing (by its unique primary key) the element `find?` returned,
a predicate that only ever matches that key finds nothing. -/
theorem find?_eraseP_eq_none {l : List Favorite} {p : Favorite → Bool} {fav : Favorite}
    (hids : l.Pairwise (fun a b => a.id ≠ b.id))
    (hfind : l.find? p = some fav)
    (hp : ∀ f, p f = true → f.id = fav.id) :
    (l.eraseP (fun f => f.id == fav.id)).find? p = none := by
  induction l with
  | nil => simp at hfind
  | cons a t ih =>
    rcases List.pairwise_cons.mp hids with ⟨ha, ht⟩
    cases hqa : p a with
    | true =>
      rw [List.find?_cons_of_pos t hqa] at hfind
      injection hfind with hfa
      subst hfa
      rw [List.eraseP_cons_of_pos (by simp)]
      rw [List.find?_eq_none]
      intro x hx hpx
      exact ha x hx ((hp x hpx).symm ▸ rfl)
    | false =>
      rw [List.find?_cons_of_neg t (by simp [hqa])] at hfind
      have hmem : fav ∈ t := List.mem_of_find?_eq_some hfind
      have hane : a.id ≠ fav.id := ha fav hmem
      rw [List.eraseP_cons_of_neg (by simp [hane])]
      rw [List.find?_cons_of_neg _ (by simp [hqa])]
      exact ih ht hfind

/-- C1: on a store whose usernames are unique, registering an already-taken
username fails with the Conflict outcome (400 `Username already exists` on
this route) and leaves exactly one `User` row with that username, while
registering a fresh username with all three fields present persists exactly
one new `User` row and succeeds with 201. -/
theorem register_conflict_and_success :
    (∀ st n un em pw cf u, UserInv st → u ∈ st.users → u.username = un →
      register st n (RegisterReq.mk (some un) (some em) (some pw)) cf
          = (Resp.mk 400 (Body.err "Username already exists"), st)
        ∧ (register st n (RegisterReq.mk (some un) (some em) (some pw)) cf).2.users.countP
            (fun v => v.username == un) = 1
        ∧ 400 ∈ conflictStatusCodes) ∧
    (∀ st n un em pw, (∀ u ∈ st.users, u.username ≠ un) →
      register st n (RegisterReq.mk (some un) (some em) (some pw)) none
          = (Resp.mk 201 (Body.message "User registered successfully"),
             AppState.mk (st.users ++ [User.mk n un em (hashPw pw)]) st.favorites)
        ∧ (register st n (RegisterReq.mk (some un) (some em) (some pw)) none).2.users.countP
            (fun v => v.username == un) = 1) := by
  constructor
  · intro st n un em pw cf u hinv hu hun
    have hfind : (st.users.find? (fun v => v.username == un)).isSome := by
      rw [List.find?_isSome]
      exact ⟨u, hu, by simp [hun]⟩
    refine ⟨by simp [register, hfind], ?_, by simp [conflictStatusCodes]⟩
    have hst : (register st n (RegisterReq.mk (some un) (some em) (some pw)) cf).2 = st := by
      simp [register, hfind]
    rw [hst]
    refine countP_eq_one_of_pairwise ?_ hu (by simp [hun])
    refine hinv.imp fun hne hc => ?_
    rcases hc with ⟨h1, h2⟩
    simp only [beq_iff_eq] at h1 h2
    exact hne (h1.trans h2.symm)
  · intro st n un em pw hnone
    have hfind : st.users.find? (fun v => v.username == un) = none := by
      rw [List.find?_eq_none]
      intro x hx hpx
      simp only [beq_iff_eq] at hpx
      exact hnone x hx hpx
    refine ⟨by simp [register, hfind], ?_⟩
    have hst : (register st n (RegisterReq.mk (some un) (some em) (some pw)) none).2.users
        = st.users ++ [User.mk n un em (hashPw pw)] := by
      simp [register, hfind]
    rw [hst, List.countP_append]
    have h0 : st.users.countP (fun v => v.username == un) = 0 := by
      rw [List.countP_eq_zero]
      intro x hx hpx
      simp only [beq_iff_eq] at hpx
      exact hnone x hx hpx
    simp [h0]

/-- Witness for C1: a concrete duplicate registration is rejected with the
store unchanged, and a concrete fresh registration appends exactly the new
row. -/
theorem register_conflict_and_success_witness :
    (register (AppState.mk [User.mk 1 "alice" "a@x.io" (hashPw "pw1")] [])
        2 (RegisterReq.mk (some "alice") (some "a2@x.io") (some "pw2")) none
      = (Resp.mk 400 (Body.err "Username already exists"),
         AppState.mk [User.mk 1 "alice" "a@x.io" (hashPw "pw1")] []))
    ∧ (register (AppState.mk [] []) 1
        (RegisterReq.mk (some "bob") (some "b@x.io") (some "pw")) none
      = (Resp.mk 201 (Body.message "User registered successfully"),
         AppState.mk [User.mk 1 "bob" "b@x.io" (hashPw "pw")] [])) := by
  constructor
  · exact (register_conflict_and_success.1
      (AppState.mk [User.mk 1 "alice" "a@x.io" (hashPw "pw1")] [])
      2 "alice" "a2@x.io" "pw2" none (User.mk 1 "alice" "a@x.io" (hashPw "pw1"))
      (by simp [UserInv]) (by simp) rfl).1
  · have h := (register_conflict_and_success.2 (AppState.mk [] []) 1 "bob" "b@x.io" "pw"
      (by intro u hu; simp at hu)).1
    simpa using h

/-- C2: a login with an unknown username and a login with a known username but
a failing password check produce literally the same response, the 401
`Invalid credentials` error, so the response does not reveal which check
failed. -/
theorem login_uniform_unauthorized :
    ∀ key now st un1 pw1 un2 pw2 u,
      st.users.find? (fun v => v.username == un1) = none →
      st.users.find? (fun v => v.username == un2) = some u →
      check_password u pw2 = false →
      login key now st (some (LoginReq.mk (some un1) (some pw1)))
          = login key now st (some (LoginReq.mk (some un2) (some pw2)))
        ∧ login key now st (some (LoginReq.mk (some un1) (some pw1)))
          = Resp.mk 401 (Body.err "Invalid credentials") := by
  intro key now st un1 pw1 un2 pw2 u h1 h2 hpw
  exact ⟨by simp [login, h1, h2, hpw], by simp [login, h1]⟩

/-- Witness for C2: with one stored user, an unknown-username login and a
wrong-password login for the stored user get the identical 401 response. -/
theorem login_uniform_unauthorized_witness :
    login "k" 5 (AppState.mk [User.mk 1 "alice" "a@x.io" (hashPw "right")] [])
        (some (LoginReq.mk (some "mallory") (some "pw")))
      = login "k" 5 (AppState.mk [User.mk 1 "alice" "a@x.io" (hashPw "right")] [])
        (some (LoginReq.mk (some "alice") (some "wrong"))) :=
  (login_uniform_unauthorized "k" 5
    (AppState.mk [User.mk 1 "alice" "a@x.io" (hashPw "right")] [])
    "mallory" "pw" "alice" "wrong" (User.mk 1 "alice" "a@x.io" (hashPw "right"))
    (by decide) (by decide) (by decide)).1

/-- C3: a session token issued for a user id, verified under the same signing
key within its validity window, yields that same user id. -/
theorem verify_issue_roundtrip :
    ∀ key now0 now uid, now < now0 + tokenValidityWindow →
      verify key now (issue key now0 uid) = some uid := by
  intro key now0 now uid h
  simp [verify, issue, h]

/-- Witness for C3: a concrete token round-trips one time unit after issuance. -/
theorem verify_issue_roundtrip_witness :
    1 < 0 + tokenValidityWindow ∧ verify "k" 1 (issue "k" 0 42) = some 42 :=
  ⟨by decide, verify_issue_roundtrip "k" 0 1 42 (by decide)⟩

/-- C4: on a favorites store satisfying the (user, movie) uniqueness
invariant, adding a favorite whose `(user_id, movie_id)` already exists fails
with Conflict (409) and leaves exactly one matching row; and every
`add_favorite` call, whatever its input and outcome, preserves the
invariant. -/
theorem add_favorite_conflict_and_invariant :
    (∀ st n uid mid t pu cf f, FavInv st → f ∈ st.favorites →
      f.user_id = uid → f.movie_id = mid →
      add_favorite st n uid (some (AddFavoriteReq.mk (some mid) (some t) pu)) cf
          = (Resp.mk 409 (Body.err "Movie already in favorites"), st)
        ∧ (add_favorite st n uid
            (some (AddFavoriteReq.mk (some mid) (some t) pu)) cf).2.favorites.countP
            (fun g => g.movie_id == mid && g.user_id == uid) = 1
        ∧ 409 ∈ conflictStatusCodes) ∧
    (∀ st n uid data cf, FavInv st → FavInv (add_favorite st n uid data cf).2) := by
  constructor
  · intro st n uid mid t pu cf f hinv hf huid hmid
    have hfind : (st.favorites.find? (fun g => g.movie_id == mid && g.user_id == uid)).isSome := by
      rw [List.find?_isSome]
      exact ⟨f, hf, by simp [huid, hmid]⟩
    refine ⟨by simp [add_favorite, hfind], ?_, by simp [conflictStatusCodes]⟩
    have hst : (add_favorite st n uid
        (some (AddFavoriteReq.mk (some mid) (some t) pu)) cf).2 = st := by
      simp [add_favorite, hfind]
    rw [hst]
    refine countP_eq_one_of_pairwise ?_ hf (by simp [huid, hmid])
    refine hinv.imp fun hne hc => ?_
    rcases hc with ⟨h1, h2⟩
    simp only [Bool.and_eq_true, beq_iff_eq] at h1 h2
    exact hne ⟨h1.2.trans h2.2.symm, h1.1.trans h2.1.symm⟩
  · intro st n uid data cf hinv
    cases data with
    | none => simpa [add_favorite] using hinv
    | some d =>
      rcases d with ⟨mo, tio, pu⟩
      cases mo with
      | none => simpa [add_favorite] using hinv
      | some mid =>
        cases tio with
        | none => simpa [add_favorite] using hinv
        | some t =>
          cases hfind : (st.favorites.find?
              (fun f => f.movie_id == mid && f.user_id == uid)).isSome with
          | true => simpa [add_favorite, hfind] using hinv
          | false =>
            cases cf with
            | some e => simpa [add_favorite, hfind] using hinv
            | none =>
              have hnone : st.favorites.find?
                  (fun f => f.movie_id == mid && f.user_id == uid) = none :=
                Option.not_isSome_iff_eq_none.mp (by simp [hfind])
              have hall := List.find?_eq_none.mp hnone
              have hres : (add_favorite st n uid
                  (some (AddFavoriteReq.mk (some mid) (some t) pu)) none).2.favorites
                  = st.favorites ++ [Favorite.mk n mid t pu uid] := by
                simp [add_favorite, hfind]
              unfold FavInv at hinv ⊢
              rw [hres, List.pairwise_append]
              refine ⟨hinv, List.pairwise_singleton _ _, ?_⟩
              intro a ha b hb
              rcases List.mem_singleton.mp hb with rfl
              rintro ⟨h1, h2⟩
              exact hall a ha (by simp [h1, h2])

/-- Witness for C4: a concrete duplicate add is rejected with the store
unchanged, and a concrete successful add preserves the invariant. -/
theorem add_favorite_conflict_and_invariant_witness :
    (add_favorite (AppState.mk [] [Favorite.mk 1 "tt0468569" "The Dark Knight" none 7])
        2 7 (some (AddFavoriteReq.mk (some "tt0468569") (some "The Dark Knight") none)) none
      = (Resp.mk 409 (Body.err "Movie already in favorites"),
         AppState.mk [] [Favorite.mk 1 "tt0468569" "The Dark Knight" none 7]))
    ∧ FavInv (add_favorite (AppState.mk [] []) 1 7
        (some (AddFavoriteReq.mk (some "tt0468569") (some "The Dark Knight") none)) none).2 := by
  constructor
  · exact (add_favorite_conflict_and_invariant.1
      (AppState.mk [] [Favorite.mk 1 "tt0468569" "The Dark Knight" none 7])
      2 7 "tt0468569" "The Dark Knight" none none
      (Favorite.mk 1 "tt0468569" "The Dark Knight" none 7)
      (by simp [FavInv]) (by simp) rfl rfl).1
  · exact add_favorite_conflict_and_invariant.2 (AppState.mk [] []) 1 7
      (some (AddFavoriteReq.mk (some "tt0468569") (some "The Dark Knight") none)) none
      (by simp [FavInv])

/-- C5: deleting a favorite id that is absent or owned by another user fails
with 404 `Favorite not found` and leaves the store unchanged; and after a
successful delete (ids being unique), deleting the same id again also fails
with 404, so deletion is not idempotent. -/
theorem delete_favorite_notfound_and_nonidempotent :
    (∀ st uid fid, (∀ f ∈ st.favorites, ¬(f.id = fid ∧ f.user_id = uid)) →
      delete_favorite st uid fid = (Resp.mk 404 (Body.err "Favorite not found"), st)) ∧
    (∀ st uid fid fav, FavIdInv st →
      st.favorites.find? (fun f => f.id == fid && f.user_id == uid) = some fav →
      (delete_favorite st uid fid).1.status = 200
        ∧ delete_favorite (delete_favorite st uid fid).2 uid fid
          = (Resp.mk 404 (Body.err "Favorite not found"), (delete_favorite st uid fid).2)) := by
  constructor
  · intro st uid fid hnone
    have hfind : st.favorites.find? (fun f => f.id == fid && f.user_id == uid) = none := by
      rw [List.find?_eq_none]
      intro x hx hpx
      simp only [Bool.and_eq_true, beq_iff_eq] at hpx
      exact hnone x hx ⟨hpx.1, hpx.2⟩
    simp [delete_favorite, hfind]
  · intro st uid fid fav hinv hfind
    have hids : st.favorites.Pairwise (fun a b => a.id ≠ b.id) := hinv
    have hfid : fav.id = fid := by
      have hp := List.find?_some hfind
      simp only [Bool.and_eq_true, beq_iff_eq] at hp
      exact hp.1
    have herase : (delete_favorite st uid fid).2
        = AppState.mk st.users (st.favorites.eraseP (fun f => f.id == fav.id)) := by
      simp [delete_favorite, hfind]
    refine ⟨by simp [delete_favorite, hfind], ?_⟩
    have hnone2 : (st.favorites.eraseP (fun f => f.id == fav.id)).find?
        (fun f => f.id == fid && f.user_id == uid) = none := by
      refine find?_eraseP_eq_none hids hfind ?_
      intro f hpf
      simp only [Bool.and_eq_true, beq_iff_eq] at hpf
      exact hpf.1.trans hfid.symm
    rw [herase]
    simp [delete_favorite, hnone2]

/-- Witness for C5: another user's delete of a concrete favorite returns 404
leaving the row, and the owner's second delete of the same id returns 404. -/
theorem delete_favorite_witness :
    (delete_favorite (AppState.mk [] [Favorite.mk 1 "tt0468569" "The Dark Knight" none 7]) 8 1
      = (Resp.mk 404 (Body.err "Favorite not found"),
         AppState.mk [] [Favorite.mk 1 "tt0468569" "The Dark Knight" none 7]))
    ∧ delete_favorite
        (delete_favorite (AppState.mk [] [Favorite.mk 1 "tt0468569" "The Dark Knight" none 7]) 7 1).2 7 1
      = (Resp.mk 404 (Body.err "Favorite not found"),
         (delete_favorite (AppState.mk [] [Favorite.mk 1 "tt0468569" "The Dark Knight" none 7]) 7 1).2) := by
  constructor
  · exact delete_favorite_notfound_and_nonidempotent.1
      (AppState.mk [] [Favorite.mk 1 "tt0468569" "The Dark Knight" none 7]) 8 1 (by decide)
  · exact (delete_favorite_notfound_and_nonidempotent.2
      (AppState.mk [] [Favorite.mk 1 "tt0468569" "The Dark Knight" none 7]) 7 1
      (Favorite.mk 1 "tt0468569" "The Dark Knight" none 7)
      (by simp [FavIdInv]) (by decide)).2

/-- C6: for a non-empty query, a catalog reply with `Response = "False"` makes
the search route answer 404 with the catalog's `Error` string, and a reply
with `Response` not `"False"` and a `Search` array makes it answer 200 with
that array passed through unchanged. -/
theorem search_movies_notfound_and_passthrough :
    ∀ st q r, q ≠ "" →
      (r.response = some "False" → ∀ e, r.error = some e →
        search_movies st (some q) (UpstreamResult.reply r)
          = (Resp.mk 404 (Body.err e), st))
      ∧ (r.response ≠ some "False" → ∀ arr, r.search = some arr →
        search_movies st (some q) (UpstreamResult.reply r)
          = (Resp.mk 200 (Body.movieList arr), st)) := by
  intro st q r hq
  constructor
  · intro hresp e herr
    simp [search_movies, hq, hresp, herr]
  · intro hresp arr hsearch
    simp [search_movies, hq, hresp, hsearch]

/-- Witness for C6: the two stub replies of the spec, `Movie not found!` and a
two-element search list, on the query `batman`. -/
theorem search_movies_notfound_and_passthrough_witness :
    (search_movies (AppState.mk [] []) (some "batman")
        (UpstreamResult.reply (OmdbReply.mk (some "False") (some "Movie not found!") none))
      = (Resp.mk 404 (Body.err "Movie not found!"), AppState.mk [] []))
    ∧ (search_movies (AppState.mk [] []) (some "batman")
        (UpstreamResult.reply
          (OmdbReply.mk (some "True") none (some ["Batman Begins", "The Batman"])))
      = (Resp.mk 200 (Body.movieList ["Batman Begins", "The Batman"]),
         AppState.mk [] [])) := by
  constructor
  · exact (search_movies_notfound_and_passthrough (AppState.mk [] []) "batman"
      (OmdbReply.mk (some "False") (some "Movie not found!") none)
      (by decide)).1 rfl "Movie not found!" rfl
  · exact (search_movies_notfound_and_passthrough (AppState.mk [] []) "batman"
      (OmdbReply.mk (some "True") none (some ["Batman Begins", "The Batman"]))
      (by decide)).2 (by decide) ["Batman Begins", "The Batman"] rfl

/-- C7: a transport failure of the outbound catalog call (which includes
exceeding the bounded 10-second timeout) makes both the search route and the
detail route answer 502 `Failed to connect to OMDB API` — not a 500 — with
the store returned unchanged, so no partial state is committed. -/
theorem upstream_failure_502_no_state_change :
    ∀ st q imdb_id, q ≠ "" →
      search_movies st (some q) UpstreamResult.transportError
        = (Resp.mk 502 (Body.err "Failed to connect to OMDB API"), st)
      ∧ get_movie_details st imdb_id UpstreamResult.transportError
        = (Resp.mk 502 (Body.err "Failed to connect to OMDB API"), st) := by
  intro st q imdb_id hq
  exact ⟨by simp [search_movies, hq], by simp [get_movie_details]⟩

/-- Witness for C7: concrete timed-out search and detail calls both answer 502
with the store unchanged. -/
theorem upstream_failure_502_no_state_change_witness :
    search_movies (AppState.mk [] [Favorite.mk 1 "tt0468569" "The Dark Knight" none 7])
        (some "batman") UpstreamResult.transportError
      = (Resp.mk 502 (Body.err "Failed to connect to OMDB API"),
         AppState.mk [] [Favorite.mk 1 "tt0468569" "The Dark Knight" none 7])
    ∧ get_movie_details (AppState.mk [] [Favorite.mk 1 "tt0468569" "The Dark Knight" none 7])
        "tt0468569" UpstreamResult.transportError
      = (Resp.mk 502 (Body.err "Failed to connect to OMDB API"),
         AppState.mk [] [Favorite.mk 1 "tt0468569" "The Dark Knight" none 7]) :=
  upstream_failure_502_no_state_change
    (AppState.mk [] [Favorite.mk 1 "tt0468569" "The Dark Knight" none 7])
    "batman" "tt0468569" (by decide)

/-- C8 counterexample: the catch-all handler puts `str(e)` in the 500 body, so
at a concrete commit failure the externally-facing error message is exactly
the internal exception text, and two different internal exception messages
produce two different bodies — the body is not independent of it. -/
theorem internal_error_leaks_exception_text :
    (register (AppState.mk [] []) 1
        (RegisterReq.mk (some "alice") (some "a@x.io") (some "pw"))
        (some "IntegrityError: UNIQUE constraint failed: user.email")).1
      = Resp.mk 500 (Body.err "IntegrityError: UNIQUE constraint failed: user.email")
    ∧ (register (AppState.mk [] []) 1
        (RegisterReq.mk (some "alice") (some "a@x.io") (some "pw"))
        (some "exception text A")).1
      ≠ (register (AppState.mk [] []) 1
        (RegisterReq.mk (some "alice") (some "a@x.io") (some "pw"))
        (some "exception text B")).1 := by
  exact ⟨rfl, by decide⟩

/-- C8 amended: the anticipated failures use fixed domain messages, but on an
unanticipated exception during commit the register and add-favorite handlers
answer 500 with exactly the internal exception's text as the error message
(the store itself is rolled back unchanged). -/
theorem internal_error_body_equals_exception_text :
    (∀ st n un em pw e, (∀ u ∈ st.users, u.username ≠ un) →
      register st n (RegisterReq.mk (some un) (some em) (some pw)) (some e)
        = (Resp.mk 500 (Body.err e), st))
    ∧ (∀ st n uid mid t pu e,
        (∀ f ∈ st.favorites, ¬(f.movie_id = mid ∧ f.user_id = uid)) →
      add_favorite st n uid (some (AddFavoriteReq.mk (some mid) (some t) pu)) (some e)
        = (Resp.mk 500 (Body.err e), st)) := by
  constructor
  · intro st n un em pw e hnone
    have hfind : st.users.find? (fun v => v.username == un) = none := by
      rw [List.find?_eq_none]
      intro x hx hpx
      simp only [beq_iff_eq] at hpx
      exact hnone x hx hpx
    simp [register, hfind]
  · intro st n uid mid t pu e hnone
    have hfind : st.favorites.find? (fun f => f.movie_id == mid && f.user_id == uid) = none := by
      rw [List.find?_eq_none]
      intro x hx hpx
      simp only [Bool.and_eq_true, beq_iff_eq] at hpx
      exact hnone x hx ⟨hpx.1, hpx.2⟩
    simp [add_favorite, hfind]

/-- Witness for the amended C8: concrete commit failures surface their exact
exception text in the 500 body of both handlers. -/
theorem internal_error_body_equals_exception_text_witness :
    (register (AppState.mk [] []) 1
        (RegisterReq.mk (some "alice") (some "a@x.io") (some "pw")) (some "disk I-O error")
      = (Resp.mk 500 (Body.err "disk I-O error"), AppState.mk [] []))
    ∧ (add_favorite (AppState.mk [] []) 1 7
        (some (AddFavoriteReq.mk (some "tt0468569") (some "The Dark Knight") none))
        (some "database is locked")
      = (Resp.mk 500 (Body.err "database is locked"), AppState.mk [] [])) :=
  ⟨internal_error_body_equals_exception_text.1 (AppState.mk [] []) 1
      "alice" "a@x.io" "pw" "disk I-O error" (by intro u hu; simp at hu),
   internal_error_body_equals_exception_text.2 (AppState.mk [] []) 1 7
      "tt0468569" "The Dark Knight" none "database is locked" (by intro f hf; simp at hf)⟩

/-- C9 counterexample: the success response of add-favorite is the fixed body
`message: Favorite added` and is identical for two different records, so it
does not return the new `Favorite` record's fields (id, movie_id, title,
poster_url). -/
theorem add_favorite_success_response_constant :
    (add_favorite (AppState.mk [] []) 1 7
        (some (AddFavoriteReq.mk (some "tt0468569") (some "The Dark Knight") none)) none).1
      = Resp.mk 201 (Body.message "Favorite added")
    ∧ (add_favorite (AppState.mk [] []) 1 7
        (some (AddFavoriteReq.mk (some "tt0468569") (some "The Dark Knight") none)) none).1
      = (add_favorite (AppState.mk [] []) 1 7
        (some (AddFavoriteReq.mk (some "tt1375666") (some "Inception") (some "p.jpg"))) none).1 := by
  exact ⟨rfl, rfl⟩

/-- C9 amended: an authenticated add with `movie_id` and `title` present and
no existing `(user_id, movie_id)` row persists exactly the new row and
answers 201 — with the fixed body `message: Favorite added`, not the new
record. -/
theorem add_favorite_persists_and_returns_message :
    ∀ st n uid mid t pu, (∀ f ∈ st.favorites, ¬(f.movie_id = mid ∧ f.user_id = uid)) →
      add_favorite st n uid (some (AddFavoriteReq.mk (some mid) (some t) pu)) none
        = (Resp.mk 201 (Body.message "Favorite added"),
           AppState.mk st.users (st.favorites ++ [Favorite.mk n mid t pu uid])) := by
  intro st n uid mid t pu hnone
  have hfind : st.favorites.find? (fun f => f.movie_id == mid && f.user_id == uid) = none := by
    rw [List.find?_eq_none]
    intro x hx hpx
    simp only [Bool.and_eq_true, beq_iff_eq] at hpx
    exact hnone x hx ⟨hpx.1, hpx.2⟩
  simp [add_favorite, hfind]

/-- Witness for the amended C9: a concrete successful add appends exactly the
new row and answers 201 with the fixed message. -/
theorem add_favorite_persists_and_returns_message_witness :
    add_favorite (AppState.mk [] []) 1 7
        (some (AddFavoriteReq.mk (some "tt1375666") (some "Inception") (some "p.jpg"))) none
      = (Resp.mk 201 (Body.message "Favorite added"),
         AppState.mk [] [Favorite.mk 1 "tt1375666" "Inception" (some "p.jpg") 7]) := by
  have h := add_favorite_persists_and_returns_message (AppState.mk [] []) 1 7
    "tt1375666" "Inception" (some "p.jpg") (by intro f hf; simp at hf)
  simpa using h

/-- C10: for a non-empty query, a catalog reply whose `Response` is not
`"False"` but which carries no `Search` field makes the search route answer
200 with the empty list rather than an error. -/
theorem search_movies_missing_search_gives_empty_list :
    ∀ st q r, q ≠ "" → r.response ≠ some "False" → r.search = none →
      search_movies st (some q) (UpstreamResult.reply r)
        = (Resp.mk 200 (Body.movieList []), st) := by
  intro st q r hq hresp hsearch
  simp [search_movies, hq, hresp, hsearch]

/-- Witness for C10: a concrete `Response = "True"` reply without a `Search`
key yields 200 with the empty list. -/
theorem search_movies_missing_search_gives_empty_list_witness :
    search_movies (AppState.mk [] []) (some "batman")
        (UpstreamResult.reply (OmdbReply.mk (some "True") none none))
      = (Resp.mk 200 (Body.movieList []), AppState.mk [] []) :=
  search_movies_missing_search_gives_empty_list (AppState.mk [] []) "batman"
    (OmdbReply.mk (some "True") none none) (by decide) (by decide) rfl

end Movieverse
